import Mathlib

/-!
Verification development for the real-time transcription pipeline.

Every definition below is a shallow embedding of a function of the
repository's source (file and symbol named in its doc comment).  Numeric
audio values (JS `number`, i.e. IEEE doubles holding small rationals in
all the programs' own constants) are modelled as `ℚ`; machine 16-bit
integers are modelled as `ℤ` with the explicit wrap-around that storing
into an `Int16Array` performs; wall-clock times (`Date.now()`) are `ℚ`
milliseconds supplied as explicit parameters.
-/

namespace Transcription

/-- JS `Math.min` on two (non-NaN) numbers. -/
def jsMin (a b : ℚ) : ℚ := if a ≤ b then a else b

/-- JS `Math.max` on two (non-NaN) numbers. -/
def jsMax (a b : ℚ) : ℚ := if b ≤ a then a else b

/-! ## VoiceActivityDetector (src/src/utils/audioWorkletManager.ts, lines 1026-1079) -/

/-- Size of the rolling energy history (`historySize = 10` in
`VoiceActivityDetector`). -/
def historySize : Nat := 10

/-- Sum of squares of the samples of a frame: the accumulation loop of
`VoiceActivityDetector.calculateEnergy`. -/
def sumSquares (audioData : List ℚ) : ℚ :=
  audioData.foldl (fun acc s => acc + s * s) 0

/-- Square of the RMS energy that `VoiceActivityDetector.calculateEnergy`
returns (the source returns `Math.sqrt(sumSquares / audioData.length)`;
the square root of a rational is irrational in general, so the detector
below takes the RMS value itself as its argument and this definition
ties a concrete frame to that RMS: a frame has RMS `e` exactly when its
`calculateEnergySq` is `e ^ 2` with `0 ≤ e`). -/
def calculateEnergySq (audioData : List ℚ) : ℚ :=
  sumSquares audioData / (audioData.length : ℚ)

/-- Result record of `VoiceActivityDetector.detectVoiceActivity`. -/
structure VADResult where
  isSpeech : Bool
  confidence : ℚ
  deriving Repr, DecidableEq

/-- Model of `VoiceActivityDetector.calculateBackgroundNoise`: `0.001` for an
empty history, otherwise `Math.min(...this.energyHistory)`. -/
def calculateBackgroundNoise (energyHistory : List ℚ) : ℚ :=
  match energyHistory with
  | [] => 1 / 1000
  | e :: es => es.foldl jsMin e

/-- The history update at the top of `detectVoiceActivity`: push the new
energy, then `shift()` (drop the oldest entry) if the history has grown
beyond `historySize`. -/
def pushEnergy (history : List ℚ) (energy : ℚ) : List ℚ :=
  let h := history ++ [energy]
  if historySize < h.length then h.tail else h

/-- Model of `VoiceActivityDetector.detectVoiceActivity`, parameterised by the
frame's RMS energy (the value `calculateEnergy` returns).  Returns the
updated history together with the `isSpeech`/`confidence` result:
`threshold = backgroundNoise * 2`, `isSpeech = energy > threshold`,
`confidence = Math.max(0, Math.min(1.0, energy / (threshold * 3)))`.
(ℚ division by zero yields 0 where JS yields Infinity; every theorem below
only evaluates it at a strictly positive threshold.) -/
def detectVoiceActivity (history : List ℚ) (energy : ℚ) : List ℚ × VADResult :=
  let h := pushEnergy history energy
  let backgroundNoise := calculateBackgroundNoise h
  let threshold := backgroundNoise * 2
  let isSpeech := decide (threshold < energy)
  let confidence := jsMin 1 (energy / (threshold * 3))
  (h, ⟨isSpeech, jsMax 0 confidence⟩)

/-- Folding `detectVoiceActivity` over a sequence of frame energies,
keeping only the evolving history. -/
def runEnergies (history : List ℚ) (energies : List ℚ) : List ℚ :=
  energies.foldl (fun h e => (detectVoiceActivity h e).1) history

/-- The history after the ten quiet calls of the C9 scenario: ten
consecutive frames of RMS energy 0.001, starting from a fresh detector. -/
def quietHistory : List ℚ :=
  runEnergies [] (List.replicate 10 (1 / 1000))

/-- A constant frame of `n` copies of sample `c` has squared RMS `c ^ 2`
(so its RMS is `|c|`): bridge between concrete frames and the energy
parameter of `detectVoiceActivity`. -/
theorem calculateEnergySq_replicate (n : Nat) (c : ℚ) (hn : n ≠ 0) :
    calculateEnergySq (List.replicate n c) = c ^ 2 := by
  have hsum : ∀ m : Nat, ∀ a : ℚ,
      (List.replicate m c).foldl (fun acc s => acc + s * s) a = a + m * (c * c) := by
    intro m
    induction m with
    | zero => intro a; simp
    | succ k ih =>
      intro a
      simp only [List.replicate_succ, List.foldl_cons, ih]
      push_cast
      ring
  have hn' : (n : ℚ) ≠ 0 := Nat.cast_ne_zero.mpr hn
  unfold calculateEnergySq sumSquares
  rw [hsum n 0, List.length_replicate]
  field_simp
  ring

/-- Running the quiet scenario leaves exactly the ten quiet energies in the
history (the history never exceeds `historySize`, so nothing is shifted out). -/
theorem quietHistory_eq : quietHistory = List.replicate 10 (1 / 1000) := by
  norm_num [quietHistory, runEnergies, detectVoiceActivity, pushEnergy,
    calculateBackgroundNoise, historySize, jsMin, jsMax, List.replicate]

/-- C9: after ten consecutive frames of RMS energy 0.001, the call of
`detectVoiceActivity` on a frame of RMS energy 0.5 returns `isSpeech = true`
with `confidence > 0.7` (here the clamp drives it to exactly 1), and the
noise floor used is the minimum 0.001 of the last ten energies. -/
theorem c9_vad_loud_frame_after_quiet :
    (detectVoiceActivity quietHistory (1 / 2)).2.isSpeech = true ∧
      (7 / 10 : ℚ) < (detectVoiceActivity quietHistory (1 / 2)).2.confidence ∧
      (detectVoiceActivity quietHistory (1 / 2)).2.confidence = 1 ∧
      calculateBackgroundNoise (pushEnergy quietHistory (1 / 2)) = 1 / 1000 := by
  rw [quietHistory_eq]
  norm_num [detectVoiceActivity, pushEnergy, calculateBackgroundNoise,
    historySize, jsMin, jsMax, List.replicate]

/-! ## PCM16 conversion (src/src/utils/audioWorkletManager.ts,
`RealtimeTranscriptionProcessor.convertToPCM` / `applyDithering`, lines 900-917) -/

/-- JS `Math.round`: round half toward positive infinity. -/
def jsRound (x : ℚ) : ℤ := ⌊x + 1 / 2⌋

/-- Wrapping an integer into a 16-bit two's-complement slot, as the store
into an `Int16Array` element performs. -/
def toInt16 (n : ℤ) : ℤ := (n + 32768) % 65536 - 32768

/-- Model of `applyDithering`: the source adds the triangular dither
`(Math.random() - 0.5) * 0.001` to the sample; the random draw is surfaced
here as the explicit parameter `dither`, which ranges over
`[-1/2000, 1/2000)` as `Math.random()` ranges over `[0, 1)`. -/
def applyDithering (sample dither : ℚ) : ℚ := sample + dither

/-- One sample of `convertToPCM`: hard-clamp the float sample to `[-1, 1]`
(`Math.max(-1, Math.min(1, x))`), apply the dither, scale by 32767,
`Math.round`, and store the result into the `Int16Array` slot (which wraps
modulo 2^16).  Note the source clamps before dithering and never re-clamps,
so the scaled value can leave the Int16 range near the rails. -/
def convertToPCMSample (x dither : ℚ) : ℤ :=
  toInt16 (jsRound (applyDithering (jsMax (-1) (jsMin 1 x)) dither * 32767))

/-- C7 counterexample: the dither value 1/2500 is attainable
(`Math.random() = 0.9` gives `(0.9 - 0.5) * 0.001 = 1/2500`), and at the
in-range sample `x = 0` with that dither the produced integer is 13, whose
round-trip error `13/32767` far exceeds the claimed bound `1/32768` (the
source's dither amplitude is `0.001`, about 16 least significant bits, not
the `2/32768` the claim presupposes). -/
theorem c7_roundtrip_bound_fails :
    ((9 / 10 : ℚ) - 1 / 2) * (1 / 1000) = 1 / 2500 ∧
      convertToPCMSample 0 (1 / 2500) = 13 ∧
      ¬ (|(convertToPCMSample 0 (1 / 2500) : ℚ) / 32767 - 0| ≤ 1 / 32768) := by
  have h13 : convertToPCMSample 0 (1 / 2500) = 13 := by
    norm_num [convertToPCMSample, toInt16, jsRound, applyDithering, jsMin, jsMax]
  refine ⟨by norm_num, h13, ?_⟩
  rw [h13]
  push_cast
  rw [show |(13 : ℚ) / 32767 - 0| = 13 / 32767 by
    rw [sub_zero, abs_of_nonneg] <;> norm_num]
  norm_num

/-- Clamping is the identity on samples already in `[-1, 1]`. -/
theorem clamp_eq_self (x : ℚ) (h : |x| ≤ 1) : jsMax (-1) (jsMin 1 x) = x := by
  obtain ⟨h1, h2⟩ := abs_le.mp h
  unfold jsMin jsMax
  split_ifs with ha hb hb <;> linarith

/-- The Int16 store is the identity on values already in the 16-bit range. -/
theorem toInt16_eq_self (n : ℤ) (h1 : -32768 ≤ n) (h2 : n ≤ 32767) :
    toInt16 n = n := by
  unfold toInt16
  rw [Int.emod_eq_of_lt (by omega) (by omega)]
  omega

/-- Two-sided bound on `Math.round`. -/
theorem jsRound_bounds (y : ℚ) : y - 1 / 2 < (jsRound y : ℚ) ∧ (jsRound y : ℚ) ≤ y + 1 / 2 := by
  unfold jsRound
  constructor
  · have := Int.sub_one_lt_floor (y + 1 / 2)
    linarith
  · exact Int.floor_le (y + 1 / 2)

/-- C7 amended: for a sample `x ∈ [-1, 1]` and any attainable dither
(`|dither| ≤ 1/2000`), provided the rounded value stays inside the Int16
range (no wrap-around — wrap is possible only within `1/2000` of the rails),
the round-trip error is at most the dither amplitude plus half an LSB:
`|p/32767 - x| ≤ 1/2000 + 1/65534`.  This replaces the claimed `1/32768`
bound, which `c7_roundtrip_bound_fails` shows false. -/
theorem c7_roundtrip_amended (x dither : ℚ)
    (hx : |x| ≤ 1) (hd : |dither| ≤ 1 / 2000)
    (hlo : -32768 ≤ jsRound ((x + dither) * 32767))
    (hhi : jsRound ((x + dither) * 32767) ≤ 32767) :
    |(convertToPCMSample x dither : ℚ) / 32767 - x| ≤ 1 / 2000 + 1 / 65534 := by
  obtain ⟨hd1, hd2⟩ := abs_le.mp hd
  have hclamp : jsMax (-1) (jsMin 1 x) = x := clamp_eq_self x hx
  have hconv : convertToPCMSample x dither = jsRound ((x + dither) * 32767) := by
    unfold convertToPCMSample applyDithering
    rw [hclamp]
    exact toInt16_eq_self _ hlo hhi
  obtain ⟨hb1, hb2⟩ := jsRound_bounds ((x + dither) * 32767)
  have key : |(jsRound ((x + dither) * 32767) : ℚ) - 32767 * x| ≤ 32767 / 2000 + 1 / 2 := by
    rw [abs_le]
    constructor <;> nlinarith [hb1, hb2, hd1, hd2]
  rw [hconv,
    show (jsRound ((x + dither) * 32767) : ℚ) / 32767 - x =
      ((jsRound ((x + dither) * 32767) : ℚ) - 32767 * x) / 32767 by ring,
    abs_div, abs_of_nonneg (by norm_num : (0:ℚ) ≤ 32767),
    div_le_iff₀ (by norm_num : (0:ℚ) < 32767)]
  nlinarith [key]

/-- Witness for `c7_roundtrip_amended` at `x = 1/2`, `dither = 0`. -/
theorem c7_roundtrip_amended_witness :
    |(convertToPCMSample (1 / 2) 0 : ℚ) / 32767 - 1 / 2| ≤ 1 / 2000 + 1 / 65534 :=
  c7_roundtrip_amended (1 / 2) 0 (by norm_num [abs_le])
    (by norm_num [abs_le]) (by norm_num [jsRound]) (by norm_num [jsRound])

/-! ## Chunker (src/src/utils/audioWorkletManager.ts,
`RealtimeTranscriptionProcessor.processAudioFrame` / `processAudioChunk` /
`processTranscriptionChunk` / `performTranscription`, lines 828-1014),
configured by `OptimizedTranscriptionService.initializeProcessor`
(src/src/utils/enhancedTranscription.ts, lines 691-723). -/

/-- The `TranscriptionConfig` record of realtimeTranscription. -/
structure TranscriptionConfig where
  sampleRate : ℚ
  channelCount : ℚ
  bitDepth : ℚ
  chunkDuration : ℚ
  overlapDuration : ℚ
  silenceThreshold : ℚ
  minSpeechDuration : ℚ
  maxChunkSize : ℚ

/-- The configuration `OptimizedTranscriptionService.initializeProcessor`
passes to `RealtimeTranscriptionProcessor` (enhancedTranscription.ts,
lines 693-702). -/
def processorConfig : TranscriptionConfig :=
  { sampleRate := 16000, channelCount := 1, bitDepth := 16,
    chunkDuration := 500, overlapDuration := 100, silenceThreshold := 1 / 200,
    minSpeechDuration := 200, maxChunkSize := 24000 }

/-- An `AudioChunk` as built by `processAudioChunk` (the random string id is
omitted; nothing modelled reads it). -/
structure AudioChunk where
  timestamp : ℚ
  data : List ℤ
  duration : ℚ
  isSpeech : Bool
  confidence : ℚ

/-- Whole-buffer `convertToPCM`: per-sample conversion with the per-sample
random dither surfaced as the function `dither : Nat → ℚ` (sample index to
draw). -/
def convertToPCM (dither : Nat → ℚ) (float32Data : List ℚ) : List ℤ :=
  float32Data.mapIdx (fun i x => convertToPCMSample x (dither i))

/-- Mutable state of `RealtimeTranscriptionProcessor` relevant to chunking
(`audioBuffer`, `chunkQueue`, `lastProcessTime`, `silenceStartTime`,
`isSpeaking`; the field `isSpeaking` is initialised `false` and never
written anywhere in the source). -/
structure ChunkerState where
  audioBuffer : List (List ℚ)
  chunkQueue : List AudioChunk
  lastProcessTime : ℚ
  silenceStartTime : ℚ
  isSpeaking : Bool

/-- Observable output of the chunk pipeline: either a binary frame sent on
the transcription WebSocket, or an invocation of the
`onTranscriptionCallback`. -/
inductive PipelineEvent where
  | wsSend (data : List ℤ)
  | transcriptionCallback (text : String) (confidence : ℚ)
  deriving Repr, DecidableEq

/-- Recogniser for WebSocket sends among pipeline events. -/
def PipelineEvent.isWsSend : PipelineEvent → Bool
  | .wsSend _ => true
  | _ => false

/-- The mock text `performTranscription` returns (the function is the
source's own placeholder: it performs no network interaction at all). -/
def mockTranscriptionText (sampleCount : Nat) : String :=
  "[Audio chunk: " ++ toString sampleCount ++ " samples]"

/-- Model of `processTranscriptionChunk`: guard
`!chunk.isSpeech || chunk.confidence < 0.5`, then `performTranscription`
(which returns the mock text, always nonempty) and one callback invocation.
No WebSocket frame is produced: `performTranscription` never touches the
socket, and `sendAudioData` has no caller anywhere in the repository. -/
def processTranscriptionChunk (chunk : AudioChunk) : List PipelineEvent :=
  if ¬ chunk.isSpeech ∨ chunk.confidence < 1 / 2 then []
  else [.transcriptionCallback (mockTranscriptionText chunk.data.length) chunk.confidence]

/-- Model of `combineChunks`: concatenates the chunks' PCM buffers. -/
def combineChunks (chunks : List AudioChunk) : List ℤ :=
  (chunks.map AudioChunk.data).flatten

/-- Model of `processAccumulatedSpeech`: merge all queued speech chunks into
one unit carrying the first speech chunk's metadata and the summed duration,
and feed it to `processTranscriptionChunk`. -/
def processAccumulatedSpeech (chunkQueue : List AudioChunk) : List PipelineEvent :=
  match chunkQueue.filter (·.isSpeech) with
  | [] => []
  | c :: cs =>
      processTranscriptionChunk
        { c with data := combineChunks (c :: cs),
                 duration := ((c :: cs).map AudioChunk.duration).sum }

/-- Model of `handleSilencePeriod`: start the silence clock, or after more
than 2000 ms of continuous silence flush the accumulated speech and reset
the clock. -/
def handleSilencePeriod (now : ℚ) (st : ChunkerState) : ChunkerState × List PipelineEvent :=
  if st.silenceStartTime = 0 then ({ st with silenceStartTime := now }, [])
  else if 2000 < now - st.silenceStartTime then
    ({ st with silenceStartTime := 0 }, processAccumulatedSpeech st.chunkQueue)
  else (st, [])

/-- Model of `cleanupOldChunks`: drop queued chunks older than 30 s. -/
def cleanupOldChunks (now : ℚ) (chunkQueue : List AudioChunk) : List AudioChunk :=
  chunkQueue.filter (fun chunk => now - chunk.timestamp < 30000)

/-- Duration field of a freshly built chunk:
`(combinedData.length / this.config.sampleRate) * 1000`. -/
def chunkDurationMs (cfg : TranscriptionConfig) (sampleCount : Nat) : ℚ :=
  ((sampleCount : ℚ) / cfg.sampleRate) * 1000

/-- The chunk `processAudioChunk` builds from the buffered frames, with the
RMS energy of the combined buffer supplied as `rms` (see
`calculateEnergySq`) and the VAD history threaded explicitly. -/
def builtChunk (cfg : TranscriptionConfig) (dither : Nat → ℚ) (rms now : ℚ)
    (audioBuffer : List (List ℚ)) (hist : List ℚ) : AudioChunk :=
  let combinedData := audioBuffer.flatten
  let vadResult := (detectVoiceActivity hist rms).2
  { timestamp := now,
    data := convertToPCM dither combinedData,
    duration := chunkDurationMs cfg combinedData.length,
    isSpeech := vadResult.isSpeech,
    confidence := vadResult.confidence }

/-- Model of `processAudioChunk`.  Returns the successor chunker state, the
updated VAD history, the produced chunk (`none` when the buffer was empty
and the call returned immediately), and the emitted events. -/
def processAudioChunk (cfg : TranscriptionConfig) (dither : Nat → ℚ) (rms now : ℚ)
    (st : ChunkerState) (hist : List ℚ) :
    ChunkerState × List ℚ × Option AudioChunk × List PipelineEvent :=
  if st.audioBuffer = [] then (st, hist, none, [])
  else
    let hist' := (detectVoiceActivity hist rms).1
    let chunk := builtChunk cfg dither rms now st.audioBuffer hist
    let st1 := { st with audioBuffer := [], chunkQueue := st.chunkQueue ++ [chunk] }
    let branch : ChunkerState × List PipelineEvent :=
      if chunk.isSpeech ∧ 7 / 10 < chunk.confidence then
        (st1, processTranscriptionChunk chunk)
      else if ¬ st1.isSpeaking then handleSilencePeriod now st1
      else (st1, [])
    ({ branch.1 with chunkQueue := cleanupOldChunks now branch.1.chunkQueue },
      hist', some chunk, branch.2)

/-- Model of `processAudioFrame`: buffer the frame, and flush via
`processAudioChunk` when at least `chunkDuration` ms of wall time have
passed since the last flush (then record the flush time). -/
def processAudioFrame (cfg : TranscriptionConfig) (dither : Nat → ℚ) (rms now : ℚ)
    (frame : List ℚ) (st : ChunkerState) (hist : List ℚ) :
    ChunkerState × List ℚ × Option AudioChunk × List PipelineEvent :=
  let st' := { st with audioBuffer := st.audioBuffer ++ [frame] }
  if cfg.chunkDuration ≤ now - st.lastProcessTime then
    let r := processAudioChunk cfg dither rms now st' hist
    ({ r.1 with lastProcessTime := now }, r.2.1, r.2.2.1, r.2.2.2)
  else (st', hist, none, [])

/-- State of a fresh `RealtimeTranscriptionProcessor` whose `start`
completed at time `t0` (`lastProcessTime = Date.now()`). -/
def initialChunkerState (t0 : ℚ) : ChunkerState :=
  { audioBuffer := [], chunkQueue := [], lastProcessTime := t0,
    silenceStartTime := 0, isSpeaking := false }

/-- A 4096-sample worklet frame of constant value 0.1 (the worklet always
posts frames of exactly `bufferSize = 4096` samples); its RMS is exactly
0.1. -/
def c8Frame : List ℚ := List.replicate 4096 (1 / 10)

/-- A worklet frame holds 4096 samples. -/
theorem c8Frame_length : c8Frame.length = 4096 := by
  rw [c8Frame, List.length_replicate]

/-- The C8 counterexample trace: frames arriving at t = 100, 300 and 501 ms
after `start` at t = 0; the wall-clock gate (500 ms) admits the flush only
on the third frame, with three frames (12288 samples) buffered. -/
def c8Step1 : ChunkerState × List ℚ × Option AudioChunk × List PipelineEvent :=
  processAudioFrame processorConfig (fun _ => 0) (1 / 10) 100 c8Frame (initialChunkerState 0) []

/-- Second frame of the C8 trace. -/
def c8Step2 : ChunkerState × List ℚ × Option AudioChunk × List PipelineEvent :=
  processAudioFrame processorConfig (fun _ => 0) (1 / 10) 300 c8Frame c8Step1.1 c8Step1.2.1

/-- Third frame of the C8 trace, which triggers the flush. -/
def c8Step3 : ChunkerState × List ℚ × Option AudioChunk × List PipelineEvent :=
  processAudioFrame processorConfig (fun _ => 0) (1 / 10) 501 c8Frame c8Step2.1 c8Step2.2.1

/-- C8 counterexample: on the trace above the produced chunk has
`duration = 768` ms, strictly greater than
`chunkDuration + overlapDuration = 600` ms, so the claimed invariant
`durationMs ∈ [minSpeechDuration, chunkDuration + overlapDuration]` fails
(the code computes the duration from whatever number of samples happened to
accumulate and enforces no bound on it). -/
theorem c8_duration_invariant_fails :
    c8Step3.2.2.1.map AudioChunk.duration = some 768 ∧
      ¬ ((768 : ℚ) ≤ processorConfig.chunkDuration + processorConfig.overlapDuration) := by
  constructor
  · norm_num [c8Step3, c8Step2, c8Step1, processAudioFrame, processAudioChunk,
      initialChunkerState, builtChunk, chunkDurationMs, processorConfig, c8Frame_length,
      detectVoiceActivity, pushEnergy, calculateBackgroundNoise, historySize,
      jsMin, jsMax, handleSilencePeriod, processTranscriptionChunk, cleanupOldChunks,
      List.cons_ne_nil]
  · norm_num [processorConfig]

/-- C8 amended: the produced chunk's duration is exactly
`sampleCount / sampleRate * 1000` for the number of samples buffered at
flush time — nothing else —, and under the service's processor
configuration it lies in the claimed interval
`[minSpeechDuration, chunkDuration + overlapDuration]` precisely when the
buffered sample count lies in `[3200, 9600]`; the code itself enforces no
bound (`c8_duration_invariant_fails` exhibits 12288 buffered samples giving
768 ms). -/
theorem c8_duration_characterisation :
    (∀ (cfg : TranscriptionConfig) (dither : Nat → ℚ) (rms now : ℚ)
        (st : ChunkerState) (hist : List ℚ),
        (processAudioChunk cfg dither rms now st hist).2.2.1.map AudioChunk.duration =
          if st.audioBuffer = [] then none
          else some (chunkDurationMs cfg st.audioBuffer.flatten.length)) ∧
      (∀ n : Nat,
        (processorConfig.minSpeechDuration ≤ chunkDurationMs processorConfig n ∧
            chunkDurationMs processorConfig n ≤
              processorConfig.chunkDuration + processorConfig.overlapDuration) ↔
          (3200 ≤ n ∧ n ≤ 9600)) := by
  constructor
  · intro cfg dither rms now st hist
    by_cases hb : st.audioBuffer = [] <;>
      simp [processAudioChunk, builtChunk, hb]
  · intro n
    unfold chunkDurationMs processorConfig
    simp only
    rw [show ((n : ℚ) / 16000) * 1000 = (n : ℚ) / 16 by ring,
      le_div_iff₀ (by norm_num : (0:ℚ) < 16), div_le_iff₀ (by norm_num : (0:ℚ) < 16)]
    norm_num

/-! ## Chunk pipeline traces (for the forwarding/ordering claim).
A trace replays a sequence of worklet frame arrivals through
`processAudioFrame`, logging every produced chunk and every observable
event in the order they happen. -/

/-- One worklet frame arrival: the wall-clock time of the callback, the
frame samples, and the RMS energy the combined buffer would have if this
arrival triggers a flush. -/
structure FrameArrival where
  now : ℚ
  frame : List ℚ
  rms : ℚ

/-- Accumulated replay state: chunker state, VAD history, produced chunks
(in production order) and emitted events (in emission order). -/
structure ChunkerTrace where
  state : ChunkerState
  hist : List ℚ
  chunks : List AudioChunk
  events : List PipelineEvent

/-- Replay of one frame arrival. -/
def stepFrame (cfg : TranscriptionConfig) (dither : Nat → ℚ)
    (tr : ChunkerTrace) (a : FrameArrival) : ChunkerTrace :=
  let r := processAudioFrame cfg dither a.rms a.now a.frame tr.state tr.hist
  { state := r.1, hist := r.2.1,
    chunks := tr.chunks ++ r.2.2.1.toList,
    events := tr.events ++ r.2.2.2 }

/-- Replay of a whole sequence of frame arrivals. -/
def runFrames (cfg : TranscriptionConfig) (dither : Nat → ℚ)
    (tr : ChunkerTrace) (inputs : List FrameArrival) : ChunkerTrace :=
  inputs.foldl (stepFrame cfg dither) tr

/-- The acceptance test of `processAudioChunk`
(`chunk.isSpeech && chunk.confidence > 0.7`). -/
def acceptedChunk (c : AudioChunk) : Prop :=
  c.isSpeech = true ∧ 7 / 10 < c.confidence

instance (c : AudioChunk) : Decidable (acceptedChunk c) := by
  unfold acceptedChunk
  infer_instance

/-- The one callback event an accepted chunk produces
(`performTranscription` mock result fed to `onTranscriptionCallback`). -/
def callbackOf (c : AudioChunk) : PipelineEvent :=
  .transcriptionCallback (mockTranscriptionText c.data.length) c.confidence

/-- Events of `processTranscriptionChunk` never include a WebSocket send. -/
theorem processTranscriptionChunk_no_ws (c : AudioChunk) :
    (processTranscriptionChunk c).filter PipelineEvent.isWsSend = [] := by
  unfold processTranscriptionChunk
  split <;> simp [PipelineEvent.isWsSend]

/-- Events of `processAccumulatedSpeech` never include a WebSocket send. -/
theorem processAccumulatedSpeech_no_ws (q : List AudioChunk) :
    (processAccumulatedSpeech q).filter PipelineEvent.isWsSend = [] := by
  unfold processAccumulatedSpeech
  split
  · simp
  · exact processTranscriptionChunk_no_ws _

/-- Events of `handleSilencePeriod` never include a WebSocket send. -/
theorem handleSilencePeriod_no_ws (now : ℚ) (st : ChunkerState) :
    (handleSilencePeriod now st).2.filter PipelineEvent.isWsSend = [] := by
  unfold handleSilencePeriod
  split
  · simp
  · split
    · exact processAccumulatedSpeech_no_ws _
    · simp

/-- Events of one `processAudioChunk` call never include a WebSocket send. -/
theorem processAudioChunk_no_ws (cfg : TranscriptionConfig) (dither : Nat → ℚ)
    (rms now : ℚ) (st : ChunkerState) (hist : List ℚ) :
    (processAudioChunk cfg dither rms now st hist).2.2.2.filter PipelineEvent.isWsSend = [] := by
  unfold processAudioChunk
  split
  · simp
  · simp only
    split
    · exact processTranscriptionChunk_no_ws _
    · split
      · exact handleSilencePeriod_no_ws _ _
      · simp

/-- Events of one `processAudioFrame` call never include a WebSocket send. -/
theorem processAudioFrame_no_ws (cfg : TranscriptionConfig) (dither : Nat → ℚ)
    (rms now : ℚ) (frame : List ℚ) (st : ChunkerState) (hist : List ℚ) :
    (processAudioFrame cfg dither rms now frame st hist).2.2.2.filter
      PipelineEvent.isWsSend = [] := by
  unfold processAudioFrame
  split
  · exact processAudioChunk_no_ws _ _ _ _ _ _
  · simp

/-- Replays only ever append chunks to the log. -/
theorem runFrames_chunks_mono (cfg : TranscriptionConfig) (dither : Nat → ℚ)
    (inputs : List FrameArrival) (tr : ChunkerTrace) :
    ∃ l, (runFrames cfg dither tr inputs).chunks = tr.chunks ++ l := by
  induction inputs generalizing tr with
  | nil => exact ⟨[], by simp [runFrames]⟩
  | cons a rest ih =>
    obtain ⟨l, hl⟩ := ih (stepFrame cfg dither tr a)
    refine ⟨(processAudioFrame cfg dither a.rms a.now a.frame tr.state tr.hist).2.2.1.toList ++ l, ?_⟩
    rw [show runFrames cfg dither tr (a :: rest) = runFrames cfg dither (stepFrame cfg dither tr a) rest from rfl,
      hl]
    simp [stepFrame]

/-- A nonempty-buffer `processAudioChunk` call produces exactly the built
chunk, and when that chunk passes the acceptance test its entire event
output is the single mock-transcription callback. -/
theorem processAudioChunk_accepted (cfg : TranscriptionConfig) (dither : Nat → ℚ)
    (rms now : ℚ) (st : ChunkerState) (hist : List ℚ) (hb : st.audioBuffer ≠ []) :
    (processAudioChunk cfg dither rms now st hist).2.2.1 =
      some (builtChunk cfg dither rms now st.audioBuffer hist) ∧
    (acceptedChunk (builtChunk cfg dither rms now st.audioBuffer hist) →
      (processAudioChunk cfg dither rms now st hist).2.2.2 =
        [callbackOf (builtChunk cfg dither rms now st.audioBuffer hist)]) := by
  unfold processAudioChunk
  rw [if_neg hb]
  refine ⟨rfl, ?_⟩
  intro hacc
  obtain ⟨h1, h2⟩ := hacc
  simp only
  rw [if_pos ⟨h1, h2⟩]
  unfold processTranscriptionChunk callbackOf
  rw [if_neg]
  push_neg
  refine ⟨h1, by linarith⟩

/-- One replay step either flushes nothing (logging no chunk and no event)
or flushes exactly one chunk; an accepted flushed chunk contributes exactly
its callback event. -/
theorem stepFrame_spec (cfg : TranscriptionConfig) (dither : Nat → ℚ)
    (tr : ChunkerTrace) (a : FrameArrival) :
    ((stepFrame cfg dither tr a).chunks = tr.chunks ∧
        (stepFrame cfg dither tr a).events = tr.events) ∨
      (∃ c, (stepFrame cfg dither tr a).chunks = tr.chunks ++ [c] ∧
        (acceptedChunk c → (stepFrame cfg dither tr a).events = tr.events ++ [callbackOf c])) := by
  unfold stepFrame processAudioFrame
  by_cases hgate : cfg.chunkDuration ≤ a.now - tr.state.lastProcessTime
  · right
    rw [if_pos hgate]
    have hb : ({ tr.state with audioBuffer := tr.state.audioBuffer ++ [a.frame] }
        : ChunkerState).audioBuffer ≠ [] := by
      simp
    obtain ⟨hprod, hev⟩ := processAudioChunk_accepted cfg dither a.rms a.now _ tr.hist hb
    refine ⟨builtChunk cfg dither a.rms a.now (tr.state.audioBuffer ++ [a.frame]) tr.hist, ?_, ?_⟩
    · simp only [hprod, Option.toList_some]
    · intro hacc
      simp only [hev hacc]
  · left
    rw [if_neg hgate]
    simp

/-- C1 (amended): over any replayed frame-arrival trace, (a) the chunk
pipeline sends nothing over the WebSocket — `performTranscription` is the
source's placebo placeholder and `sendAudioData` has no caller — and
(b) when every produced chunk passes the acceptance test
(`isSpeech && confidence > 0.7`), the emitted events are exactly one
mock-transcription callback per accepted chunk, strictly in production
order with no batching. -/
theorem c1_accepted_chunks_callback_order_no_ws (cfg : TranscriptionConfig)
    (dither : Nat → ℚ) (tr : ChunkerTrace) (inputs : List FrameArrival) :
    (runFrames cfg dither tr inputs).events.filter PipelineEvent.isWsSend =
        tr.events.filter PipelineEvent.isWsSend ∧
      (tr.events = tr.chunks.map callbackOf →
        (∀ c ∈ (runFrames cfg dither tr inputs).chunks, acceptedChunk c) →
        (runFrames cfg dither tr inputs).events =
          (runFrames cfg dither tr inputs).chunks.map callbackOf) := by
  induction inputs generalizing tr with
  | nil => exact ⟨rfl, fun h _ => h⟩
  | cons a rest ih =>
    have hrun : runFrames cfg dither tr (a :: rest) =
        runFrames cfg dither (stepFrame cfg dither tr a) rest := rfl
    have hstepws : (stepFrame cfg dither tr a).events.filter PipelineEvent.isWsSend =
        tr.events.filter PipelineEvent.isWsSend := by
      unfold stepFrame
      rw [List.filter_append, processAudioFrame_no_ws, List.append_nil]
    constructor
    · rw [hrun, (ih (stepFrame cfg dither tr a)).1, hstepws]
    · intro hinv hall
      rw [hrun] at hall ⊢
      rcases stepFrame_spec cfg dither tr a with ⟨hc, he⟩ | ⟨c, hc, he⟩
      · exact (ih (stepFrame cfg dither tr a)).2 (by rw [hc, he]; exact hinv) hall
      · have hmem : c ∈ (runFrames cfg dither (stepFrame cfg dither tr a) rest).chunks := by
          obtain ⟨l, hl⟩ := runFrames_chunks_mono cfg dither rest (stepFrame cfg dither tr a)
          rw [hl, hc]
          simp
        have hacc : acceptedChunk c := hall c hmem
        refine (ih (stepFrame cfg dither tr a)).2 ?_ hall
        rw [hc, he hacc, hinv]
        simp

/-- Trace start for the concrete C1 run: a fresh chunker at t = 0 whose
detector has already seen the ten quiet frames (so the next loud flush is
accepted). -/
def c1StartTrace : ChunkerTrace :=
  { state := initialChunkerState 0, hist := quietHistory, chunks := [], events := [] }

/-- A loud frame arriving at t = 500 ms (the wall-clock gate admits the
flush), with combined-buffer RMS 0.5. -/
def c1LoudArrival : FrameArrival := { now := 500, frame := c8Frame, rms := 1 / 2 }

/-- The concrete C1 run: one accepted chunk is produced. -/
def c1Run : ChunkerTrace := runFrames processorConfig (fun _ => 0) c1StartTrace [c1LoudArrival]

/-- The chunk the concrete C1 run produces. -/
def c1Chunk : AudioChunk :=
  builtChunk processorConfig (fun _ => 0) (1 / 2) 500 [c8Frame] quietHistory

/-- Evaluation of the concrete chunk: marked speech, confidence 1, 4096 PCM
samples. -/
theorem c1Chunk_props :
    c1Chunk.isSpeech = true ∧ c1Chunk.confidence = 1 ∧ c1Chunk.data.length = 4096 := by
  rw [c1Chunk, quietHistory_eq]
  norm_num [builtChunk, convertToPCM, c8Frame_length, detectVoiceActivity, pushEnergy,
    calculateBackgroundNoise, historySize, jsMin, jsMax, List.replicate]

/-- The concrete chunk passes the acceptance test. -/
theorem c1Chunk_accepted : acceptedChunk c1Chunk :=
  ⟨c1Chunk_props.1, by rw [c1Chunk_props.2.1]; norm_num⟩

/-- The concrete C1 run logs exactly the one chunk and exactly its callback
event. -/
theorem c1Run_log : c1Run.chunks = [c1Chunk] ∧ c1Run.events = [callbackOf c1Chunk] := by
  rw [show c1Run = stepFrame processorConfig (fun x => 0) c1StartTrace c1LoudArrival from rfl]
  have hgate : processorConfig.chunkDuration ≤
      c1LoudArrival.now - c1StartTrace.state.lastProcessTime := by
    norm_num [processorConfig, c1LoudArrival, c1StartTrace, initialChunkerState]
  simp only [stepFrame, processAudioFrame, if_pos hgate]
  have hb : ({ c1StartTrace.state with
      audioBuffer := c1StartTrace.state.audioBuffer ++ [c1LoudArrival.frame] }
      : ChunkerState).audioBuffer ≠ [] := by
    simp
  obtain ⟨hprod, hev⟩ := processAudioChunk_accepted processorConfig (fun x => 0)
    c1LoudArrival.rms c1LoudArrival.now _ c1StartTrace.hist hb
  have hchunk : builtChunk processorConfig (fun x => 0) c1LoudArrival.rms c1LoudArrival.now
      (c1StartTrace.state.audioBuffer ++ [c1LoudArrival.frame]) c1StartTrace.hist = c1Chunk := by
    rw [c1Chunk]
    norm_num [c1StartTrace, c1LoudArrival, initialChunkerState]
  rw [hchunk] at hprod hev
  constructor
  · rw [hprod]
    simp [c1StartTrace]
  · rw [hev c1Chunk_accepted]
    simp [c1StartTrace]

/-- C1 counterexample: on the concrete run the produced chunk is accepted
(`isSpeech = true`, `confidence = 1 > 0.7`), yet the events contain no
WebSocket binary frame at all — the chunk's PCM is never sent on the
socket; the only observable effect is the placeholder transcription
callback carrying the mock text. -/
theorem c1_accepted_pcm_not_sent :
    c1Run.chunks.map AudioChunk.isSpeech = [true] ∧
      c1Run.chunks.map AudioChunk.confidence = [1] ∧
      c1Run.events.filter PipelineEvent.isWsSend = [] ∧
      c1Run.events = [PipelineEvent.transcriptionCallback (mockTranscriptionText 4096) 1] := by
  obtain ⟨hs, hcf, hlen⟩ := c1Chunk_props
  obtain ⟨hchunks, hevents⟩ := c1Run_log
  refine ⟨by rw [hchunks]; simp [hs], by rw [hchunks]; simp [hcf], ?_, ?_⟩
  · rw [hevents]
    simp [callbackOf, PipelineEvent.isWsSend]
  · rw [hevents]
    simp [callbackOf, hlen, hcf]

/-- Witness for `c1_accepted_chunks_callback_order_no_ws` on the concrete
run: no WebSocket sends, and the event log is exactly the per-chunk
callback sequence. -/
theorem c1_accepted_chunks_callback_order_no_ws_witness :
    (runFrames processorConfig (fun _ => 0) c1StartTrace [c1LoudArrival]).events.filter
        PipelineEvent.isWsSend = [] ∧
      (runFrames processorConfig (fun _ => 0) c1StartTrace [c1LoudArrival]).events =
        (runFrames processorConfig (fun _ => 0) c1StartTrace [c1LoudArrival]).chunks.map
          callbackOf := by
  have h := c1_accepted_chunks_callback_order_no_ws processorConfig (fun _ => 0)
    c1StartTrace [c1LoudArrival]
  constructor
  · rw [h.1]
    rfl
  · refine h.2 rfl ?_
    intro c hc
    rw [show runFrames processorConfig (fun _ => 0) c1StartTrace [c1LoudArrival] = c1Run
      from rfl, c1Run_log.1, List.mem_singleton] at hc
    rw [hc]
    exact c1Chunk_accepted

/-! ## OptimizedTranscriptionService (src/src/utils/enhancedTranscription.ts,
lines 442-850): inbound result handling, reconnection, heartbeat, sends. -/

/-- The `TranscriptionServiceConfig` record (strings for credentials and
endpoint omitted; nothing modelled reads them). -/
structure TranscriptionServiceConfig where
  language : String
  model : String
  enableHD : Bool
  enableRealtime : Bool
  sampleRate : ℚ
  maxReconnectAttempts : Nat
  reconnectDelay : ℚ

/-- The constructor defaults of `OptimizedTranscriptionService`
(enhancedTranscription.ts, lines 487-498). -/
def serviceConfigDefaults : TranscriptionServiceConfig :=
  { language := "en-US", model := "nova-2", enableHD := true,
    enableRealtime := true, sampleRate := 16000,
    maxReconnectAttempts := 5, reconnectDelay := 3000 }

/-- A word entry of an inbound alternative (source fields `word`, `start`,
`end`, `confidence`; `start`/`end` are renamed `wstart`/`wend` because `end`
is a Lean keyword). -/
structure WordInfo where
  word : String
  wstart : ℚ
  wend : ℚ
  confidence : ℚ
  deriving Repr, DecidableEq

/-- The `TranscriptionResult` record the service delivers to its
transcription callback. -/
structure TranscriptionResult where
  text : String
  confidence : ℚ
  isFinal : Bool
  timestamp : ℚ
  duration : ℚ
  language : String
  words : Option (List WordInfo)
  deriving Repr, DecidableEq

/-- One alternative of an inbound `Results` message
(`channel.alternatives[i]`); `confidence` and `words` may be absent, and a
present confidence of 0 is JS-falsy. -/
structure Alternative where
  transcript : String
  confidence : Option ℚ
  words : Option (List WordInfo)
  deriving Repr, DecidableEq

/-- The payload of an inbound `{"type":"Results", ...}` message. -/
structure ResultsData where
  alternatives : List Alternative
  is_final : Bool
  duration : Option ℚ
  language : Option String
  deriving Repr, DecidableEq

/-- The JS `a || b` fallback on an optional rational (absent or 0 falls
back). -/
def jsOrQ (a : Option ℚ) (b : ℚ) : ℚ :=
  match a with
  | some v => if v = 0 then b else v
  | none => b

/-- The JS `a || b` fallback on an optional string (absent or empty falls
back). -/
def jsOrS (a : Option String) (b : String) : String :=
  match a with
  | some v => if v = "" then b else v
  | none => b

/-- Model of `OptimizedTranscriptionService.handleTranscriptionResults`
(lines 662-689): with at least one alternative, build a
`TranscriptionResult` from the first one — with
`confidence := result.confidence || 0.85`, `isFinal := !data.is_final`
(note the negation in the source), `timestamp := Date.now()` (passed as
`now`), `duration := data.duration || 0`,
`language := data.language || config.language` — and deliver it to the
callback; with no alternative, deliver nothing. -/
def handleTranscriptionResults (cfg : TranscriptionServiceConfig)
    (data : ResultsData) (now : ℚ) : Option TranscriptionResult :=
  match data.alternatives with
  | [] => none
  | result :: _ =>
      some { text := result.transcript,
             confidence := jsOrQ result.confidence (17 / 20),
             isFinal := ! data.is_final,
             timestamp := now,
             duration := jsOrQ data.duration 0,
             language := jsOrS data.language cfg.language,
             words := result.words }

/-- A concrete final inbound message: one alternative, `is_final = true`. -/
def c2FinalMsg : ResultsData :=
  { alternatives := [{ transcript := "hello world", confidence := some (9 / 10), words := none }],
    is_final := true, duration := none, language := none }

/-- C2: the delivered `isFinal` is the NEGATION of the message's `is_final`
(the source computes `isFinal: !data.is_final`), for every message with at
least one alternative; in particular the concrete final message
(`is_final = true`) is delivered with `isFinal = false`.  The claim —
`isFinal` equal to `is_final` — is therefore false on every delivered
result; the sibling path `TranscriptionOptimizer.processTranscript` uses
`is_final` unnegated, and the inversion is flagged as a defect in the
repository's own design notes. -/
theorem c2_isFinal_inverted :
    (∀ (cfg : TranscriptionServiceConfig) (data : ResultsData) (now : ℚ),
        (handleTranscriptionResults cfg data now).map TranscriptionResult.isFinal =
          if data.alternatives = [] then none else some (! data.is_final)) ∧
      (handleTranscriptionResults serviceConfigDefaults c2FinalMsg 0).map
          TranscriptionResult.isFinal = some false ∧
      c2FinalMsg.is_final = true := by
  refine ⟨?_, by simp [handleTranscriptionResults, c2FinalMsg], rfl⟩
  intro cfg data now
  match hd : data.alternatives with
  | [] => simp [handleTranscriptionResults, hd]
  | r :: rest => simp [handleTranscriptionResults, hd]

/-- View of the live WebSocket object: whether `readyState === OPEN`. -/
structure WebSocketRef where
  readyStateOpen : Bool
  deriving Repr, DecidableEq

/-- Mutable fields of `OptimizedTranscriptionService` driving the
connection lifecycle (`websocket`, `isConnected`, `reconnectAttempts`,
`lastHeartbeatTime`). -/
structure ServiceState where
  websocket : Option WebSocketRef
  isConnected : Bool
  reconnectAttempts : Nat
  lastHeartbeatTime : ℚ
  deriving Repr, DecidableEq

/-- Observable actions of the service. -/
inductive SvcEvent where
  | wsBinarySent (data : List ℤ)
  | keepAliveSent
  | reconnectScheduled
  | reconnectForced
  | serviceStopped
  | errorLogged
  | errorCallback (msg : String)
  deriving Repr, DecidableEq

/-- Whether the socket exists and is OPEN
(`this.websocket && this.websocket.readyState === WebSocket.OPEN`). -/
def wsOpen (st : ServiceState) : Bool :=
  match st.websocket with
  | some w => w.readyStateOpen
  | none => false

/-- Effect of `stop()` on the connection fields (clears the monitoring
interval, stops the processors, closes and drops the socket, clears
`isConnected`); the reconnect counter is not touched by `stop()`. -/
def stopServiceState (st : ServiceState) : ServiceState :=
  { st with websocket := none, isConnected := false }

/-- Model of the `onopen` handler (lines 608-615): set `isConnected`, reset
`reconnectAttempts` to 0, stamp `lastHeartbeatTime = Date.now()`. -/
def handleSocketOpen (st : ServiceState) (now : ℚ) : ServiceState :=
  { st with websocket := some { readyStateOpen := true },
            isConnected := true, reconnectAttempts := 0, lastHeartbeatTime := now }

/-- Model of `attemptReconnection` (lines 744-758): below the cap,
increment the counter and schedule a delayed `reconnect()`; at the cap,
call `stop()` and schedule nothing. -/
def attemptReconnection (cfg : TranscriptionServiceConfig) (st : ServiceState) :
    ServiceState × List SvcEvent :=
  if st.reconnectAttempts < cfg.maxReconnectAttempts then
    ({ st with reconnectAttempts := st.reconnectAttempts + 1 }, [.reconnectScheduled])
  else
    (stopServiceState st, [.serviceStopped])

/-- Model of the `onclose` handler (lines 625-630): clear `isConnected`,
notify the consumer, and run `attemptReconnection`. -/
def handleSocketClose (cfg : TranscriptionServiceConfig) (st : ServiceState) :
    ServiceState × List SvcEvent :=
  attemptReconnection cfg { st with isConnected := false }

/-- A run of `n` consecutive unexpected closes with no intervening open. -/
def consecutiveCloses (cfg : TranscriptionServiceConfig) (st : ServiceState) :
    Nat → ServiceState × List SvcEvent
  | 0 => (st, [])
  | n + 1 =>
      let r := consecutiveCloses cfg st n
      let r2 := handleSocketClose cfg r.1
      (r2.1, r.2 ++ r2.2)

/-- Attempt counter and scheduled-attempt count over a close run, from any
starting counter value not above the cap. -/
theorem consecutiveCloses_count (cfg : TranscriptionServiceConfig) :
    ∀ (n : Nat) (st : ServiceState), st.reconnectAttempts ≤ cfg.maxReconnectAttempts →
      (consecutiveCloses cfg st n).1.reconnectAttempts =
          min (st.reconnectAttempts + n) cfg.maxReconnectAttempts ∧
        ((consecutiveCloses cfg st n).2.count SvcEvent.reconnectScheduled =
          min n (cfg.maxReconnectAttempts - st.reconnectAttempts)) ∧
        (SvcEvent.serviceStopped ∈ (consecutiveCloses cfg st n).2 ↔
          cfg.maxReconnectAttempts - st.reconnectAttempts < n) := by
  intro n
  induction n with
  | zero =>
    intro st hst
    refine ⟨by simp [consecutiveCloses]; omega, by simp [consecutiveCloses], ?_⟩
    simp [consecutiveCloses]
  | succ k ih =>
    intro st hst
    obtain ⟨ha, hc, hs⟩ := ih st hst
    by_cases hlt : (consecutiveCloses cfg st k).1.reconnectAttempts < cfg.maxReconnectAttempts
    · have hbranch : handleSocketClose cfg (consecutiveCloses cfg st k).1 =
          ({ (consecutiveCloses cfg st k).1 with
              isConnected := false,
              reconnectAttempts := (consecutiveCloses cfg st k).1.reconnectAttempts + 1 },
            [.reconnectScheduled]) := by
        unfold handleSocketClose attemptReconnection
        rw [if_pos (by simpa using hlt)]
      refine ⟨?_, ?_, ?_⟩
      · show (handleSocketClose cfg (consecutiveCloses cfg st k).1).1.reconnectAttempts = _
        rw [hbranch]
        simp only [ha]
        omega
      · show ((consecutiveCloses cfg st k).2 ++
            (handleSocketClose cfg (consecutiveCloses cfg st k).1).2).count
              SvcEvent.reconnectScheduled = _
        rw [hbranch, List.count_append, hc]
        rw [ha] at hlt
        simp [List.count_cons]
        omega
      · show SvcEvent.serviceStopped ∈ (consecutiveCloses cfg st k).2 ++
            (handleSocketClose cfg (consecutiveCloses cfg st k).1).2 ↔ _
        rw [hbranch, List.mem_append, hs]
        rw [ha] at hlt
        simp
        omega
    · have hbranch : handleSocketClose cfg (consecutiveCloses cfg st k).1 =
          (stopServiceState { (consecutiveCloses cfg st k).1 with isConnected := false },
            [.serviceStopped]) := by
        unfold handleSocketClose attemptReconnection
        rw [if_neg (by simpa using hlt)]
      refine ⟨?_, ?_, ?_⟩
      · show (handleSocketClose cfg (consecutiveCloses cfg st k).1).1.reconnectAttempts = _
        rw [hbranch]
        simp only [stopServiceState, ha]
        omega
      · show ((consecutiveCloses cfg st k).2 ++
            (handleSocketClose cfg (consecutiveCloses cfg st k).1).2).count
              SvcEvent.reconnectScheduled = _
        rw [hbranch, List.count_append, hc]
        rw [ha] at hlt
        simp [List.count_cons]
        omega
      · show SvcEvent.serviceStopped ∈ (consecutiveCloses cfg st k).2 ++
            (handleSocketClose cfg (consecutiveCloses cfg st k).1).2 ↔ _
        rw [hbranch, List.mem_append, hs]
        rw [ha] at hlt
        simp
        omega

/-- C5: from a freshly opened connection (which resets the attempt counter
to 0), a run of `n` consecutive unexpected closes schedules exactly
`min n 5` reconnection attempts — never more than
`maxReconnectAttempts = 5` —; once the cap is exhausted the service calls
`stop()` (exactly when `n > 5`, the close that finds the counter at the
cap), after which no further attempt is scheduled; and a successful open
resets the counter to zero. -/
theorem c5_reconnect_cap (st : ServiceState) (now : ℚ) (n : Nat) :
    ((consecutiveCloses serviceConfigDefaults (handleSocketOpen st now) n).2.count
        SvcEvent.reconnectScheduled = min n 5) ∧
      ((consecutiveCloses serviceConfigDefaults (handleSocketOpen st now) n).2.count
        SvcEvent.reconnectScheduled ≤ 5) ∧
      (SvcEvent.serviceStopped ∈
          (consecutiveCloses serviceConfigDefaults (handleSocketOpen st now) n).2 ↔ 5 < n) ∧
      (handleSocketOpen st now).reconnectAttempts = 0 := by
  have h0 : (handleSocketOpen st now).reconnectAttempts = 0 := rfl
  obtain ⟨ha, hc, hs⟩ := consecutiveCloses_count serviceConfigDefaults n
    (handleSocketOpen st now) (by rw [h0]; exact Nat.zero_le _)
  rw [h0] at hc hs
  refine ⟨?_, ?_, ?_, h0⟩
  · simpa [serviceConfigDefaults] using hc
  · rw [hc]
    simp [serviceConfigDefaults]
  · simpa [serviceConfigDefaults] using hs

/-- An inbound WebSocket message after JSON parsing, discriminated on
`type` as in `handleWebSocketMessage` (lines 646-660); `malformed` stands
for a payload whose parse throws (caught and only logged). -/
inductive InboundMessage where
  | results (data : ResultsData)
  | metadata
  | utteranceEnd
  | malformed

/-- Model of `handleWebSocketMessage`: dispatch on the `type` discriminator;
a `Results` payload goes through `handleTranscriptionResults` and may
deliver a result to the callback.  No branch touches the service state — in
particular `lastHeartbeatTime` is NOT refreshed by inbound traffic (it is
written only by the `onopen` handler). -/
def handleWebSocketMessage (cfg : TranscriptionServiceConfig) (st : ServiceState)
    (msg : InboundMessage) (now : ℚ) : ServiceState × Option TranscriptionResult :=
  match msg with
  | .results data => (st, handleTranscriptionResults cfg data now)
  | .metadata => (st, none)
  | .utteranceEnd => (st, none)
  | .malformed => (st, none)

/-- Model of the body of the 10-second interval installed by
`startConnectionMonitoring` (lines 725-742): while connected, send a
KeepAlive when the socket is OPEN, and force a `reconnect()` when more than
30000 ms have passed since `lastHeartbeatTime`. -/
def connectionCheckTick (st : ServiceState) (now : ℚ) : List SvcEvent :=
  if st.isConnected then
    (if wsOpen st then [SvcEvent.keepAliveSent] else []) ++
      (if 30000 < now - st.lastHeartbeatTime then [SvcEvent.reconnectForced] else [])
  else []

/-- A service whose connection opened at t = 0. -/
def c6Fresh : ServiceState :=
  handleSocketOpen { websocket := none, isConnected := false,
                     reconnectAttempts := 0, lastHeartbeatTime := 0 } 0

/-- C6 counterexample: the connection opens at t = 0, an inbound `Results`
message arrives at t = 29000, and the monitoring tick at t = 31000 — only
2000 ms after that traffic — still forces a reconnect, because
`lastHeartbeatTime` is written only on open and never refreshed by inbound
traffic.  This falsifies the claim's "only if no inbound traffic … for 30
seconds (observing inbound traffic resets the 30-second deadline)". -/
theorem c6_reconnect_despite_traffic :
    ((handleWebSocketMessage serviceConfigDefaults c6Fresh
        (.results c2FinalMsg) 29000).1.lastHeartbeatTime = 0) ∧
      SvcEvent.reconnectForced ∈
        connectionCheckTick
          (handleWebSocketMessage serviceConfigDefaults c6Fresh (.results c2FinalMsg) 29000).1
          31000 ∧
      ((31000 : ℚ) - 29000 < 30000) := by
  refine ⟨rfl, ?_, by norm_num⟩
  norm_num [handleWebSocketMessage, connectionCheckTick, c6Fresh, handleSocketOpen, wsOpen]

/-- C6 amended: a KeepAlive is sent at a monitoring tick exactly when the
service is connected with the socket OPEN; a forced reconnect happens at a
tick exactly when the service is connected and more than 30000 ms have
passed since the connection opened (`lastHeartbeatTime`, which only the
`onopen` handler writes — no inbound message changes any service state, so
traffic does not reset the deadline). -/
theorem c6_heartbeat_amended :
    (∀ (cfg : TranscriptionServiceConfig) (st : ServiceState) (msg : InboundMessage) (now : ℚ),
        (handleWebSocketMessage cfg st msg now).1 = st) ∧
      (∀ (st : ServiceState) (now : ℚ),
        SvcEvent.keepAliveSent ∈ connectionCheckTick st now ↔
          st.isConnected = true ∧ wsOpen st = true) ∧
      (∀ (st : ServiceState) (now : ℚ),
        SvcEvent.reconnectForced ∈ connectionCheckTick st now ↔
          st.isConnected = true ∧ 30000 < now - st.lastHeartbeatTime) ∧
      (∀ (st : ServiceState) (now : ℚ), (handleSocketOpen st now).lastHeartbeatTime = now) := by
  refine ⟨?_, ?_, ?_, fun st now => rfl⟩
  · intro cfg st msg now
    cases msg <;> rfl
  · intro st now
    unfold connectionCheckTick
    split_ifs with h1 h2 h3 <;> simp_all
  · intro st now
    unfold connectionCheckTick
    split_ifs with h1 h2 h3 <;> simp_all

/-- Which events are invocations of the error callback. -/
def SvcEvent.isErrorCallback : SvcEvent → Bool
  | .errorCallback _ => true
  | _ => false

/-- Model of `sendAudioData` (lines 782-790): send the buffer as one binary
frame only when `isConnected` and the socket is OPEN; otherwise fall
through silently.  A `send` that throws (surfaced as the `sendFault`
parameter) is caught and only logged. -/
def sendAudioData (st : ServiceState) (audioData : List ℤ) (sendFault : Bool) :
    ServiceState × List SvcEvent :=
  if st.isConnected = true ∧ wsOpen st = true then
    if sendFault then (st, [.errorLogged])
    else (st, [.wsBinarySent audioData])
  else (st, [])

/-- C10: `sendAudioData` is total (never propagates an exception — the
`sendFault` branch is the caught one), never changes the service state,
never invokes the error callback, and emits the binary frame exactly when
the service is connected with an OPEN socket and the underlying send does
not throw; in every other case the buffer is silently dropped. -/
theorem c10_sendAudioData_silent (st : ServiceState) (audioData : List ℤ) (sendFault : Bool) :
    (sendAudioData st audioData sendFault).1 = st ∧
      (sendAudioData st audioData sendFault).2.filter SvcEvent.isErrorCallback = [] ∧
      (SvcEvent.wsBinarySent audioData ∈ (sendAudioData st audioData sendFault).2 ↔
        st.isConnected = true ∧ wsOpen st = true ∧ sendFault = false) := by
  unfold sendAudioData
  split_ifs with h1 h2 <;>
    simp_all [SvcEvent.isErrorCallback]

/-! ## EnhancedTranscriptionManager (src/src/utils/enhancedTranscription.ts,
lines 47-428): initialize / stop and the timers they create.  Timers are
modelled as a registry of interval ids: `setInterval` hands out the next id
and marks it active; `clearInterval` deactivates it.  A registered id that
is never cleared models an interval that keeps firing forever. -/

/-- The host's interval registry. -/
structure Timers where
  nextId : Nat
  active : List Nat
  deriving Repr, DecidableEq

/-- Model of `setInterval`: returns the new interval's id. -/
def setIntervalT (t : Timers) : Nat × Timers :=
  (t.nextId, { nextId := t.nextId + 1, active := t.active ++ [t.nextId] })

/-- Model of `clearInterval`. -/
def clearIntervalT (t : Timers) (id : Nat) : Timers :=
  { t with active := t.active.filter (fun i => i ≠ id) }

/-- World state for one Manager: the interval registry, the service's
connection fields, the Manager's stored handles and component flags, and a
count of `onError` invocations.
`metricsIntervalId` is a ghost log of the id `startMetricsCollection`
obtained from `setInterval` — the source DISCARDS that handle (line 302:
the return value of `setInterval` is not stored anywhere), so `stop()` has
nothing to clear.
`svcSocketLive` records that `connectWebSocket` has created a WebSocket
object whose `onclose` handler has not yet fired; `svcCloseEventPending`
records that the socket was closed (by `websocket.close()` in
`disconnectWebSocket`) so its `onclose` handler is queued and will fire
asynchronously — after the synchronous caller (e.g. `initialize`'s catch
block) has already returned.  `pendingReconnects` counts
`setTimeout(reconnect, reconnectDelay)` timers scheduled by
`attemptReconnection` and not yet fired. -/
structure ManagerWorld where
  timers : Timers
  svcConnectionCheckInterval : Option Nat
  svcActive : Bool
  svcReconnectAttempts : Nat
  svcSocketLive : Bool
  svcCloseEventPending : Bool
  pendingReconnects : Nat
  streamMonitorHandle : Option Nat
  metricsIntervalId : Option Nat
  qualityAnalyzerActive : Bool
  mediaStreamLive : Bool
  isActive : Bool
  errorCallbacks : Nat
  deriving Repr, DecidableEq

/-- A fresh world: no timers, no components, no socket. -/
def initialWorld : ManagerWorld :=
  { timers := { nextId := 0, active := [] },
    svcConnectionCheckInterval := none, svcActive := false,
    svcReconnectAttempts := 0, svcSocketLive := false,
    svcCloseEventPending := false, pendingReconnects := 0,
    streamMonitorHandle := none, metricsIntervalId := none,
    qualityAnalyzerActive := false, mediaStreamLive := false,
    isActive := false, errorCallbacks := 0 }

/-- Which stages of a session start succeed in the environment:
`streamOk` — the audio stream is acquired (or provided);
`connectOk` — `connectWebSocket` resolves true within the timeout;
`processorOk` — the realtime processor starts. -/
structure InitEnv where
  streamOk : Bool
  connectOk : Bool
  processorOk : Bool

/-- Model of `OptimizedTranscriptionService.stop` (lines 822-849): clear the
monitoring interval if stored, stop the processors, and run
`disconnectWebSocket` — `websocket.close()` followed by nulling the field.
Closing a socket whose `onclose` has not yet fired queues that handler: it
still runs later (the close event is pending), even though the service no
longer references the object. -/
def serviceStop (w : ManagerWorld) : ManagerWorld :=
  let w1 := match w.svcConnectionCheckInterval with
    | some id => { w with timers := clearIntervalT w.timers id,
                          svcConnectionCheckInterval := none }
    | none => w
  let w2 := if w1.svcSocketLive then
      { w1 with svcSocketLive := false, svcCloseEventPending := true }
    else w1
  { w2 with svcActive := false }

/-- Delivery of a queued WebSocket close event: the `onclose` handler
(lines 625-630) runs unconditionally — it clears `isConnected`, notifies
the consumer, and calls `attemptReconnection`, which below the cap
increments the counter and schedules `setTimeout(reconnect, 3000)`.  This
is how a reconnection chain survives a `stop()` that closed the socket. -/
def deliverPendingClose (w : ManagerWorld) : ManagerWorld :=
  if w.svcCloseEventPending then
    let w1 := { w with svcCloseEventPending := false }
    if w1.svcReconnectAttempts < serviceConfigDefaults.maxReconnectAttempts then
      { w1 with svcReconnectAttempts := w1.svcReconnectAttempts + 1,
                pendingReconnects := w1.pendingReconnects + 1 }
    else w1
  else w

/-- Model of `OptimizedTranscriptionService.start` (lines 504-550): HD
processing (internally caught), then `connectWebSocket` — which CREATES the
WebSocket object before waiting on `onopen` —, then the realtime processor,
then `startConnectionMonitoring` (which stores its interval handle).  Any
failing stage throws into the catch block, which calls `this.stop()` and
resolves false; since a socket already exists on the connect- and
processor-failure paths, that `stop()` leaves its close event pending. -/
def serviceStart (env : InitEnv) (w : ManagerWorld) : Bool × ManagerWorld :=
  let w0 := { w with svcActive := true }
  let wsock := { w0 with svcSocketLive := true }
  if env.connectOk = false then (false, serviceStop wsock)
  else
    let wopen := { wsock with svcReconnectAttempts := 0 }
    if env.processorOk = false then (false, serviceStop wopen)
    else
      let r := setIntervalT wopen.timers
      (true, { wopen with timers := r.2, svcConnectionCheckInterval := some r.1 })

/-- Model of `EnhancedTranscriptionManager.stop` (lines 375-423): unsubscribe
the stream monitor, stop the service, clean up the analyzers, stop the
media-stream tracks.  The metrics interval has no stored handle, so nothing
here clears it. -/
def managerStop (w : ManagerWorld) : ManagerWorld :=
  let w1 := { w with isActive := false }
  let w2 := match w1.streamMonitorHandle with
    | some id => { w1 with timers := clearIntervalT w1.timers id,
                           streamMonitorHandle := none }
    | none => w1
  let w3 := if w2.svcActive then serviceStop w2 else w2
  let w4 := { w3 with qualityAnalyzerActive := false }
  { w4 with mediaStreamLive := false }

/-- Model of `EnhancedTranscriptionManager.initialize` (lines 96-161) with
the constructor's default options (quality analysis on, accuracy validation
off): acquire the stream, construct the analyzer and the service, start the
service, install the stream-health monitor, set `isActive`, and start the
metrics-collection interval — whose `setInterval` handle is discarded.
Every thrown failure lands in the catch block, which calls `cleanup()`
(= `stop()`) and returns false; the catch block does NOT invoke the
`onError` callback (it only logs). -/
def managerInitialize (env : InitEnv) (w : ManagerWorld) : Bool × ManagerWorld :=
  if env.streamOk = false then (false, managerStop w)
  else
    let w1 := { w with mediaStreamLive := true, qualityAnalyzerActive := true }
    let rs := serviceStart env w1
    if rs.1 = false then (false, managerStop rs.2)
    else
      let w2 := rs.2
      let rmon := setIntervalT w2.timers
      let w3 := { w2 with timers := rmon.2, streamMonitorHandle := some rmon.1 }
      let w4 := { w3 with isActive := true }
      let rmet := setIntervalT w4.timers
      (true, { w4 with timers := rmet.2, metricsIntervalId := some rmet.1 })

/-- The world after a fully successful `initialize` from scratch. -/
def c4Started : Bool × ManagerWorld :=
  managerInitialize { streamOk := true, connectOk := true, processorOk := true } initialWorld

/-- C4: after a successful `initialize` (which registers the service's
connection-check interval 0, the stream-monitor interval 1 and the
metrics-collection interval 2), `stop()` cancels the first two but leaves
the metrics interval active — its `setInterval` handle was discarded at
creation, so it keeps firing after `stop()` returns, contradicting the
claim. -/
theorem c4_metrics_interval_survives_stop :
    c4Started.1 = true ∧
      c4Started.2.metricsIntervalId = some 2 ∧
      c4Started.2.timers.active = [0, 1, 2] ∧
      (managerStop c4Started.2).timers.active = [2] ∧
      (managerStop c4Started.2).timers.active ≠ [] := by
  refine ⟨rfl, rfl, rfl, ?_, ?_⟩ <;>
    simp [c4Started, managerInitialize, managerStop, serviceStart, serviceStop,
      setIntervalT, clearIntervalT, initialWorld]

/-- C3 counterexample: when the WebSocket connect stage fails, `initialize`
returns false, but (a) the `onError` callback is NOT invoked — the catch
block only logs (`console.error`) before calling `cleanup()` — and (b) the
teardown is NOT complete: `connectWebSocket` already created a socket, the
catch-path `stop()` closed it, and at the moment `initialize` returns that
socket's close event is still pending; when it fires, its `onclose` handler
runs `attemptReconnection`, which schedules a delayed `reconnect()` — a
partially initialized component (a reconnection chain that will re-open a
connection) remains running.  Both the claim's "the onError callback is
invoked" and its "no partially initialized component remains running" are
false at this input. -/
theorem c3_onerror_not_invoked_and_reconnect_survives :
    (managerInitialize { streamOk := true, connectOk := false, processorOk := true }
        initialWorld).1 = false ∧
      ¬ (0 < (managerInitialize { streamOk := true, connectOk := false, processorOk := true }
          initialWorld).2.errorCallbacks) ∧
      (managerInitialize { streamOk := true, connectOk := false, processorOk := true }
          initialWorld).2.svcCloseEventPending = true ∧
      (deliverPendingClose
          (managerInitialize { streamOk := true, connectOk := false, processorOk := true }
            initialWorld).2).pendingReconnects = 1 := by
  decide

/-- C3 amended: whenever any stage fails (stream acquisition, WebSocket
connect, or processor start), `initialize` returns false, and the
SYNCHRONOUS teardown runs — the manager is inactive, every stored interval
is cleared, the analyzer is cleaned up, the media-stream tracks are
stopped — but the `onError` callback is never invoked (the failure is only
logged), and the teardown is complete only on the stream-acquisition
failure: on a connect- or processor-stage failure (exactly the failing
stages once a stream was obtained), the socket created by
`connectWebSocket` has its close event pending when `initialize` returns,
and its delivery runs `attemptReconnection` and schedules one delayed
`reconnect()`, so a reconnection chain remains running. -/
theorem c3_initialize_failure_teardown (env : InitEnv)
    (h : env.streamOk = false ∨ env.connectOk = false ∨ env.processorOk = false) :
    (managerInitialize env initialWorld).1 = false ∧
      (managerInitialize env initialWorld).2.isActive = false ∧
      (managerInitialize env initialWorld).2.svcActive = false ∧
      (managerInitialize env initialWorld).2.svcConnectionCheckInterval = none ∧
      (managerInitialize env initialWorld).2.streamMonitorHandle = none ∧
      (managerInitialize env initialWorld).2.qualityAnalyzerActive = false ∧
      (managerInitialize env initialWorld).2.mediaStreamLive = false ∧
      (managerInitialize env initialWorld).2.timers.active = [] ∧
      (managerInitialize env initialWorld).2.errorCallbacks = 0 ∧
      (managerInitialize env initialWorld).2.svcCloseEventPending = env.streamOk ∧
      (deliverPendingClose (managerInitialize env initialWorld).2).pendingReconnects =
        (if env.streamOk then 1 else 0) := by
  rcases env with ⟨s, c, p⟩
  revert h
  cases s <;> cases c <;> cases p <;> decide

/-- Witness for `c3_initialize_failure_teardown` at a processor-stage
failure. -/
theorem c3_initialize_failure_teardown_witness :
    (managerInitialize { streamOk := true, connectOk := true, processorOk := false }
        initialWorld).1 = false ∧
      (managerInitialize { streamOk := true, connectOk := true, processorOk := false }
          initialWorld).2.isActive = false ∧
      (managerInitialize { streamOk := true, connectOk := true, processorOk := false }
          initialWorld).2.svcActive = false ∧
      (managerInitialize { streamOk := true, connectOk := true, processorOk := false }
          initialWorld).2.svcConnectionCheckInterval = none ∧
      (managerInitialize { streamOk := true, connectOk := true, processorOk := false }
          initialWorld).2.streamMonitorHandle = none ∧
      (managerInitialize { streamOk := true, connectOk := true, processorOk := false }
          initialWorld).2.qualityAnalyzerActive = false ∧
      (managerInitialize { streamOk := true, connectOk := true, processorOk := false }
          initialWorld).2.mediaStreamLive = false ∧
      (managerInitialize { streamOk := true, connectOk := true, processorOk := false }
          initialWorld).2.timers.active = [] ∧
      (managerInitialize { streamOk := true, connectOk := true, processorOk := false }
          initialWorld).2.errorCallbacks = 0 ∧
      (managerInitialize { streamOk := true, connectOk := true, processorOk := false }
          initialWorld).2.svcCloseEventPending =
        ({ streamOk := true, connectOk := true, processorOk := false } : InitEnv).streamOk ∧
      (deliverPendingClose
          (managerInitialize { streamOk := true, connectOk := true, processorOk := false }
            initialWorld).2).pendingReconnects =
        (if ({ streamOk := true, connectOk := true, processorOk := false } : InitEnv).streamOk
          then 1 else 0) :=
  c3_initialize_failure_teardown
    { streamOk := true, connectOk := true, processorOk := false }
    (Or.inr (Or.inr rfl))

end Transcription
